import Mathlib

/-!
Shallow embedding of `src/parser.py` (AVM URLADER parser).

The image is a `List Nat` of bytes.  A file cursor is an explicit position
`pos : Nat`; Python's `read(k)` returns the available bytes (possibly fewer
than `k`, possibly none at end-of-file) and advances the position by the
number of bytes actually returned.  Loops of the source that can run forever
(`read_string`'s scan for a NUL byte never progresses once the cursor sits at
end-of-file) are embedded with an explicit fuel parameter: a result of `none`
means the fuel ran out, and divergence of the Python loop is expressed as
"`none` for every fuel".  Raised Python exceptions are modelled with
`Except PyErr`.
-/

set_option maxRecDepth 100000

namespace Urlader

/-- Endianness argument of `int.from_bytes` (`"big"` / `"little"`). -/
inductive Endian where
  | big
  | little
deriving DecidableEq, Repr

/-- Values stored in the result dictionary: Python `int` or Python `str`
(hex-formatted numbers and decoded strings are both `str`). -/
inductive Value where
  | int (n : Nat)
  | str (s : String)
deriving DecidableEq, Repr

/-- One 8-byte pointer record of the variable table
(`{"value": ..., "name": ...}` in the source). -/
structure Ptr where
  value : Nat
  name : Nat
deriving DecidableEq, Repr

/-- Python exceptions the parser can raise. -/
inductive PyErr where
  /-- `seek` to a negative position raises (`OSError`). -/
  | negativeSeek
  /-- `bytes.decode("utf-8")` on invalid UTF-8 raises `UnicodeDecodeError`. -/
  | unicodeDecodeError
  /-- v3: `raise Exception(f"Error: Unexpected struct_end_candidate ...")`,
  carrying the offending value and the cursor position after reading it. -/
  | unexpectedStructEnd (candidate : Nat) (pos : Nat)
deriving DecidableEq, Repr

/-- Ordered dictionary, Python `dict` with string keys in insertion order. -/
abbrev Dict := List (String × Value)

/-- Python `d[k] = v`: update in place if the key exists, else append. -/
def dinsert : Dict → String → Value → Dict
  | [], k, v => [(k, v)]
  | (k', v') :: rest, k, v =>
      if k' = k then (k', v) :: rest else (k', v') :: dinsert rest k v

/-- Python `d[k]` / `k in d` lookup. -/
def dlookup : Dict → String → Option Value
  | [], _ => none
  | (k', v') :: rest, k => if k' = k then some v' else dlookup rest k

/-- Python `{**d1, **d2}`: keys of `d1` first, entries of `d2` override. -/
def dmerge (d1 d2 : Dict) : Dict :=
  d2.foldl (fun acc kv => dinsert acc kv.1 kv.2) d1

/-- Python `file.read(k)` at position `pos`: the next `k` bytes, truncated at
end-of-image, together with the new position (advanced by the number of
bytes actually read). -/
def pyRead (img : List Nat) (pos k : Nat) : List Nat × Nat :=
  let taken := (img.drop pos).take k
  (taken, pos + taken.length)

/-- `int.from_bytes(bs, "big")`: most-significant byte first; `b"" ↦ 0`. -/
def from_bytes_be : List Nat → Nat
  | [] => 0
  | b :: rest => b * 256 ^ rest.length + from_bytes_be rest

/-- `int.from_bytes(bs, endianess)`. -/
def from_bytes (e : Endian) (bs : List Nat) : Nat :=
  match e with
  | .big => from_bytes_be bs
  | .little => from_bytes_be bs.reverse

/-- `read_integer(urlader, endianess)` of the source: read the next 4 bytes
(fewer remain near end-of-image: no error, the short read is decoded as-is)
and decode them.  Returns the value and the new cursor position. -/
def read_integer (img : List Nat) (e : Endian) (pos : Nat) : Nat × Nat :=
  let r := pyRead img pos 4
  (from_bytes e r.1, r.2)

/-- Little-endian base-16 digit list of `n`; the first argument is fuel
(`n` itself is always enough, each step divides by 16). -/
def hexDigitsAux : Nat → Nat → List Nat
  | 0, _ => []
  | _ + 1, 0 => []
  | fuel + 1, n + 1 => ((n + 1) % 16) :: hexDigitsAux fuel ((n + 1) / 16)

/-- Python `hex(n)` for `n ≥ 0`: `"0x"` followed by the lowercase hex digits,
most significant first, no leading zeros, and `hex(0) = "0x0"`. -/
def hexStr (n : Nat) : String :=
  if n = 0 then String.mk ['0', 'x', '0']
  else String.mk ('0' :: 'x' :: ((hexDigitsAux n n).map Nat.digitChar).reverse)

/-- Numeric value of one lowercase hex digit character. -/
def hexDigitVal (c : Char) : Nat :=
  if 48 ≤ c.toNat ∧ c.toNat ≤ 57 then c.toNat - 48
  else if 97 ≤ c.toNat ∧ c.toNat ≤ 102 then c.toNat - 87
  else 0

/-- Python `int(s, 0)` restricted to the `"0x..."` strings the parser feeds
it (outputs of `hex` on nonnegative integers). -/
def int0 (s : String) : Nat :=
  (s.data.drop 2).foldl (fun acc c => 16 * acc + hexDigitVal c) 0

/-- Strict UTF-8 decoding, as Python's `bytes.decode("utf-8")`: rejects
invalid start bytes, truncated sequences, overlong encodings, surrogates and
code points above `U+10FFFF`; returns the decoded code points. -/
def utf8_decode : List Nat → Option (List Nat)
  | [] => some []
  | b :: bs =>
    if b ≤ 0x7F then
      match utf8_decode bs with
      | some cps => some (b :: cps)
      | none => none
    else if b ≤ 0xC1 then none
    else if b ≤ 0xDF then
      match bs with
      | b1 :: bs1 =>
        if 0x80 ≤ b1 ∧ b1 ≤ 0xBF then
          match utf8_decode bs1 with
          | some cps => some (((b - 0xC0) * 0x40 + (b1 - 0x80)) :: cps)
          | none => none
        else none
      | [] => none
    else if b ≤ 0xEF then
      match bs with
      | b1 :: b2 :: bs2 =>
        if (0x80 ≤ b1 ∧ b1 ≤ 0xBF) ∧ (0x80 ≤ b2 ∧ b2 ≤ 0xBF)
            ∧ (b = 0xE0 → 0xA0 ≤ b1) ∧ (b = 0xED → b1 ≤ 0x9F) then
          match utf8_decode bs2 with
          | some cps =>
              some (((b - 0xE0) * 0x1000 + (b1 - 0x80) * 0x40 + (b2 - 0x80)) :: cps)
          | none => none
        else none
      | _ => none
    else if b ≤ 0xF4 then
      match bs with
      | b1 :: b2 :: b3 :: bs3 =>
        if (0x80 ≤ b1 ∧ b1 ≤ 0xBF) ∧ (0x80 ≤ b2 ∧ b2 ≤ 0xBF) ∧ (0x80 ≤ b3 ∧ b3 ≤ 0xBF)
            ∧ (b = 0xF0 → 0x90 ≤ b1) ∧ (b = 0xF4 → b1 ≤ 0x8F) then
          match utf8_decode bs3 with
          | some cps =>
              some (((b - 0xF0) * 0x40000 + (b1 - 0x80) * 0x1000
                      + (b2 - 0x80) * 0x40 + (b3 - 0x80)) :: cps)
          | none => none
        else none
      | _ => none
    else none

/-- Build a Lean `String` from decoded code points (all outputs of
`utf8_decode` are valid scalar values, so `Char.ofNat` is exact on them). -/
def strOfCps (cps : List Nat) : String :=
  String.mk (cps.map Char.ofNat)

/-- The `while data != b"\x00"` loop of `read_string`, with fuel.
`read(1)` at end-of-image returns `b""`, which is not `b"\x00"`, so the
Python loop keeps spinning there without advancing: `none` for every fuel
renders that divergence. -/
def read_string_loop : Nat → List Nat → Nat → List Nat → Option (List Nat)
  | 0, _, _, _ => none
  | fuel + 1, img, pos, acc =>
    match img[pos]? with
    | none => read_string_loop fuel img pos acc
    | some b => if b = 0 then some acc else read_string_loop fuel img (pos + 1) (acc ++ [b])

/-- `read_string(urlader, position)` of the source: `seek(position)` (raises
on a negative position, which arises from Python integer subtraction of
pointer bases), then collect bytes up to the first NUL and decode as UTF-8.
Outer `none` = the loop diverges (fuel exhausted). -/
def read_string (fuel : Nat) (img : List Nat) (position : Int) :
    Option (Except PyErr String) :=
  if position < 0 then some (.error .negativeSeek)
  else
    match read_string_loop fuel img position.toNat [] with
    | none => none
    | some bs =>
      match utf8_decode bs with
      | none => some (.error .unicodeDecodeError)
      | some cps => some (.ok (strOfCps cps))

/-- The Python `read_string` call at `position` never returns, whatever fuel
is granted to the loop. -/
def readStringDiverges (img : List Nat) (position : Int) : Prop :=
  ∀ fuel, read_string fuel img position = none

/-- The `while urlader.tell() < relative_last_data_position` loop of
`read_variable_pointers`, with fuel.  Each pass reads two 4-byte fields
(truncated at end-of-image), stops discarding the record when both raw byte
strings equal `b"\x00\x00\x00\x00"`, otherwise appends the decoded record.
Returns the collected records and the final position. -/
def read_variable_pointers_loop :
    Nat → List Nat → Endian → Nat → Int → List Ptr → Option (List Ptr × Nat)
  | 0, _, _, _, _, _ => none
  | fuel + 1, img, e, pos, bound, acc =>
    if (pos : Int) < bound then
      let rv := pyRead img pos 4
      let rn := pyRead img rv.2 4
      if rv.1 = [0, 0, 0, 0] ∧ rn.1 = [0, 0, 0, 0] then some (acc, rn.2)
      else
        read_variable_pointers_loop fuel img e rn.2 bound
          (acc ++ [⟨from_bytes e rv.1, from_bytes e rn.1⟩])
    else some (acc, pos)

/-- `read_variable_pointers(urlader, endianess, relative_last_data_position)`
of the source; the bound is an `Int` because the caller computes it by Python
subtraction, which can go negative. -/
def read_variable_pointers (fuel : Nat) (img : List Nat) (e : Endian)
    (pos : Nat) (bound : Int) : Option (List Ptr × Nat) :=
  read_variable_pointers_loop fuel img e pos bound []

/-- The v3 `while struct_end_candidate == target: ... read_integer(...)`
loops (`target` is `0xFFFFFFFF` for the padding variant, `0` for the
zero-filled variant): keep reading 4-byte integers while they equal
`target`; return the first other value and the position after it. -/
def skip_while : Nat → List Nat → Endian → Nat → Nat → Option (Nat × Nat)
  | 0, _, _, _, _ => none
  | fuel + 1, img, e, pos, target =>
    let r := read_integer img e pos
    if r.1 = target then skip_while fuel img e r.2 target else some r

/-- The `for pointer in pointers:` loop shared by both layouts: resolve the
name then the value via `read_string(urlader, pointer[...] - base)` and store
`variables[name] = value`.  Exceptions from `read_string` propagate; outer
`none` = a `read_string` call diverges. -/
def resolve_pointers (fuel : Nat) (img : List Nat) :
    List Ptr → Int → Dict → Option (Except PyErr Dict)
  | [], _, vars => some (.ok vars)
  | p :: rest, base, vars =>
    match read_string fuel img ((p.name : Int) - base) with
    | none => none
    | some (.error err) => some (.error err)
    | some (.ok name) =>
      match read_string fuel img ((p.value : Int) - base) with
      | none => none
      | some (.error err) => some (.error err)
      | some (.ok value) =>
          resolve_pointers fuel img rest base (dinsert vars name (.str value))

/-- The nineteen fixed-field reads of `parse_urlader_v2` starting at
`offset + 0x24`, returning the dictionary built so far, the raw `mtd2_start`
and `last_data_position` integers, and the cursor position after the reads. -/
def v2_fixed_vars (img : List Nat) (e : Endian) (offset : Nat) :
    Dict × Nat × Nat × Nat :=
  let p0 := offset + 0x24
  let memsize := read_integer img e p0
  let flashsize := read_integer img e memsize.2
  let unused1 := read_integer img e flashsize.2
  let unused2 := read_integer img e unused1.2
  let m0s := read_integer img e unused2.2
  let m0l := read_integer img e m0s.2
  let m1s := read_integer img e m0l.2
  let m1l := read_integer img e m1s.2
  let m2s := read_integer img e m1l.2
  let m2l := read_integer img e m2s.2
  let m3s := read_integer img e m2l.2
  let m3l := read_integer img e m3s.2
  let m4s := read_integer img e m3l.2
  let m4l := read_integer img e m4s.2
  let m5s := read_integer img e m4l.2
  let m5l := read_integer img e m5s.2
  let unk1 := read_integer img e m5l.2
  let unk2 := read_integer img e unk1.2
  let last := read_integer img e unk2.2
  ([("memsize", .int memsize.1), ("flashsize", .int flashsize.1),
    ("unused1", .int unused1.1), ("unused2", .int unused2.1),
    ("mtd0_start", .str (hexStr m0s.1)), ("mtd0_length", .str (hexStr m0l.1)),
    ("mtd1_start", .str (hexStr m1s.1)), ("mtd1_length", .str (hexStr m1l.1)),
    ("mtd2_start", .str (hexStr m2s.1)), ("mtd2_length", .str (hexStr m2l.1)),
    ("mtd3_start", .str (hexStr m3s.1)), ("mtd3_length", .str (hexStr m3l.1)),
    ("mtd4_start", .str (hexStr m4s.1)), ("mtd4_length", .str (hexStr m4l.1)),
    ("mtd5_start", .str (hexStr m5s.1)), ("mtd5_length", .str (hexStr m5l.1)),
    ("unknown_data1", .str (hexStr unk1.1)), ("unknown_data2", .str (hexStr unk2.1)),
    ("last_data_position", .str (hexStr last.1))],
   m2s.1, last.1, last.2)

/-- Tail of `parse_urlader_v2` after the base offset is computed: scan the
pointer table bounded by `last_data_position - base` and resolve every
record's strings relative to `base`. -/
def v2_finish (fuel : Nat) (img : List Nat) (e : Endian) (pos : Nat)
    (vars : Dict) (base : Nat) (last : Nat) : Option (Except PyErr Dict) :=
  match read_variable_pointers fuel img e pos ((last : Int) - (base : Int)) with
  | none => none
  | some (ptrs, _) => resolve_pointers fuel img ptrs (base : Int) vars

/-- `parse_urlader_v2(urlader, endianess, offset)` of the source: the fixed
fields from `offset + 0x24`, then `mtd2_offset = int(variables["mtd2_start"], 0)`
(the stored hex string parsed back) as pointer base and
`last_data_position - mtd2_offset` as scan bound. -/
def parse_urlader_v2 (fuel : Nat) (img : List Nat) (e : Endian) (offset : Nat) :
    Option (Except PyErr Dict) :=
  let f := v2_fixed_vars img e offset
  v2_finish fuel img e f.2.2.2 f.1 (int0 (hexStr f.2.1)) f.2.2.1

/-- Rendering of the spec's words for the v2 tail (spec 4.4 / claim C5):
`mtd2_start` as parsed from the fixed fields is itself the pointer-resolution
base and `last_data_position - mtd2_start` the scan bound, with no detour
through the hex-string formatting.  Stated for comparison with
`parse_urlader_v2`. -/
def parse_urlader_v2_base (fuel : Nat) (img : List Nat) (e : Endian) (offset : Nat) :
    Option (Except PyErr Dict) :=
  let f := v2_fixed_vars img e offset
  v2_finish fuel img e f.2.2.2 f.1 f.2.1 f.2.2.1

/-- The twelve fixed-field reads of `parse_urlader_v3` starting at
`offset + 4` (all stored as hex strings), returning the dictionary, the raw
`mtd2_start` integer and the position after the reads. -/
def v3_fixed_vars (img : List Nat) (e : Endian) (offset : Nat) :
    Dict × Nat × Nat :=
  let p0 := offset + 4
  let memsize := read_integer img e p0
  let flashsize := read_integer img e memsize.2
  let m0s := read_integer img e flashsize.2
  let m0l := read_integer img e m0s.2
  let m1s := read_integer img e m0l.2
  let m1l := read_integer img e m1s.2
  let m2s := read_integer img e m1l.2
  let m2l := read_integer img e m2s.2
  let m3s := read_integer img e m2l.2
  let m3l := read_integer img e m3s.2
  let m4s := read_integer img e m3l.2
  let m4l := read_integer img e m4s.2
  ([("memsize", .str (hexStr memsize.1)), ("flashsize", .str (hexStr flashsize.1)),
    ("mtd0_start", .str (hexStr m0s.1)), ("mtd0_length", .str (hexStr m0l.1)),
    ("mtd1_start", .str (hexStr m1s.1)), ("mtd1_length", .str (hexStr m1l.1)),
    ("mtd2_start", .str (hexStr m2s.1)), ("mtd2_length", .str (hexStr m2l.1)),
    ("mtd3_start", .str (hexStr m3s.1)), ("mtd3_length", .str (hexStr m3l.1)),
    ("mtd4_start", .str (hexStr m4s.1)), ("mtd4_length", .str (hexStr m4l.1))],
   m2s.1, m4l.2)

/-- Tail shared by the two v3 variants once `struct_end`, the pointer base
and the scan bound are fixed: record `struct_end` as a hex string, scan the
pointer table and resolve the records. -/
def v3_finish (fuel : Nat) (img : List Nat) (e : Endian) (pos : Nat)
    (vars : Dict) (struct_end : Nat) (base : Int) (bound : Int) :
    Option (Except PyErr Dict) :=
  let vars := dinsert vars "struct_end" (.str (hexStr struct_end))
  match read_variable_pointers fuel img e pos bound with
  | none => none
  | some (ptrs, _) => resolve_pointers fuel img ptrs base vars

/-- Straight-line tail of the v3 zero-terminated branch, after the zero run
has been absorbed: `c1` is the first non-zero integer and `pos1` the cursor
position after it (`urlader.tell()`).  Python evaluates the right-hand side
of `variables[f"unknown{hex(urlader.tell())}"] = hex(read_integer(...))`
before the subscript, so the second key also uses the position after the
word just read. -/
def v3_zero_tail (fuel : Nat) (img : List Nat) (e : Endian) (vars : Dict)
    (c1 pos1 : Nat) : Option (Except PyErr Dict) :=
  let vars := dinsert vars ("unknown" ++ hexStr pos1) (.str (hexStr c1))
  let r2 := read_integer img e pos1
  let vars := dinsert vars ("unknown" ++ hexStr r2.2) (.str (hexStr r2.1))
  let rse := read_integer img e r2.2
  v3_finish fuel img e rse.2 vars rse.1 ((rse.1 : Int) - 0x140) 0xFFFFFFFF

/-- `parse_urlader_v3(urlader, endianess, offset)` of the source: twelve
fixed fields from `offset + 4`, then the disambiguation probe.
`0xFFFFFFFF`: absorb the padding run, first other value is `struct_end`,
base = `mtd2_start`, bound = `struct_end - mtd2_start`.
`0x00000000`: absorb the zero run, then `v3_zero_tail` with base
`struct_end - 0x140` and bound `0xFFFFFFFF`.  Any other probe value
raises. -/
def parse_urlader_v3 (fuel : Nat) (img : List Nat) (e : Endian) (offset : Nat) :
    Option (Except PyErr Dict) :=
  let f := v3_fixed_vars img e offset
  let vars := f.1
  let m2s := f.2.1
  let probe := read_integer img e f.2.2
  if probe.1 = 0xFFFFFFFF then
    match skip_while fuel img e probe.2 0xFFFFFFFF with
    | none => none
    | some (struct_end, pos) =>
      let base := int0 (hexStr m2s)
      v3_finish fuel img e pos vars struct_end (base : Int)
        ((struct_end : Int) - (base : Int))
  else if probe.1 = 0 then
    match skip_while fuel img e probe.2 0 with
    | none => none
    | some (c1, pos1) => v3_zero_tail fuel img e vars c1 pos1
  else some (.error (.unexpectedStructEnd probe.1 probe.2))

/-- Outcome of the top-level `parse_urlader`: either a normally returned
dictionary, or the `ERROR: Unsupported urlader version` diagnostic printed
followed by the return of the partial dictionary. -/
inductive TopResult where
  | ok (vars : Dict)
  | unsupported (vars : Dict) (version : Nat)
deriving DecidableEq, Repr

/-- `parse_urlader(filepath, endianess, offset_start)` of the source: read
the 4-byte version field at `offset_start`, record it, dispatch to the v2 or
v3 layout and merge, or signal an unsupported version with the partial
dictionary. -/
def parse_urlader (fuel : Nat) (img : List Nat) (e : Endian) (offset : Nat) :
    Option (Except PyErr TopResult) :=
  let rv := pyRead img offset 4
  let version := from_bytes e rv.1
  let vars : Dict := [("version", .int version)]
  if version = 2 then
    match parse_urlader_v2 fuel img e offset with
    | none => none
    | some (.error err) => some (.error err)
    | some (.ok d) => some (.ok (.ok (dmerge vars d)))
  else if version = 3 then
    match parse_urlader_v3 fuel img e offset with
    | none => none
    | some (.error err) => some (.error err)
    | some (.ok d) => some (.ok (.ok (dmerge vars d)))
  else some (.ok (.unsupported vars version))

/-- The candidate probe of `identify_urlader`: the 4-byte integer at
`offset` under `endianess`. -/
def versionAt (img : List Nat) (e : Endian) (offset : Nat) : Nat :=
  (read_integer img e offset).1

/-- `identify_urlader(filepath)` of the source: the two nested loops over
`["big", "little"]` and `[0x0, 0x580]` unrolled; the first candidate whose
probed value is `≤ 5` wins, `none` renders the `(None, None)` fall-through. -/
def identify_urlader (img : List Nat) : Option (Endian × Nat) :=
  if versionAt img .big 0x0 ≤ 5 then some (.big, 0x0)
  else if versionAt img .big 0x580 ≤ 5 then some (.big, 0x580)
  else if versionAt img .little 0x0 ≤ 5 then some (.little, 0x0)
  else if versionAt img .little 0x580 ≤ 5 then some (.little, 0x580)
  else none

/-- Key lookup inside a successful layout-decoder result (`none` when the
decode failed, diverged, or lacks the key). -/
def resultLookup (r : Option (Except PyErr Dict)) (k : String) : Option Value :=
  match r with
  | some (.ok d) => dlookup d k
  | _ => none

/-- Synthetic v2 image: version 2 at offset 0, `mtd2_start = 0x100`,
`last_data_position = 0x180`, one pointer record
(`value_ptr = 0x183`, `name_ptr = 0x180`), the all-zero sentinel, then the
strings `"AB\x00"` at position `0x80` and `"xy\x00"` at `0x83` — so each
pointer is the base `0x100` plus the string's position in the image. -/
def v2img : List Nat :=
  [0, 0, 0, 2] ++ List.replicate 64 0 ++ [0, 0, 1, 0] ++ List.replicate 36 0
  ++ [0, 0, 1, 0x80] ++ [0, 0, 1, 0x83] ++ [0, 0, 1, 0x80] ++ List.replicate 8 0
  ++ [0x41, 0x42, 0] ++ [0x78, 0x79, 0]

/-- Synthetic v3 image, padding-terminated variant with exactly one
`0xFFFFFFFF` padding word: `mtd2_start = 0x100`, `struct_end = 0x150` right
after the padding, one pointer record (`value_ptr = 0x14E`,
`name_ptr = 0x14C`), sentinel, strings `"K\x00"` at `0x4C` and `"ZZ\x00"` at
`0x4E`. -/
def v3pad1 : List Nat :=
  List.replicate 28 0 ++ [0, 0, 1, 0] ++ List.replicate 20 0 ++ [0xFF, 0xFF, 0xFF, 0xFF]
  ++ [0, 0, 1, 0x50] ++ [0, 0, 1, 0x4E] ++ [0, 0, 1, 0x4C] ++ List.replicate 8 0
  ++ [0x4B, 0] ++ [0x5A, 0x5A, 0]

/-- Synthetic v3 image, padding-terminated variant with ten `0xFFFFFFFF`
padding words and `struct_end = 0x170`; one record (`value_ptr = 0x172`,
`name_ptr = 0x170`), sentinel, strings `"Q\x00"` at `0x70` and `"R\x00"` at
`0x72`. -/
def v3pad10 : List Nat :=
  List.replicate 28 0 ++ [0, 0, 1, 0] ++ List.replicate 20 0 ++ List.replicate 40 0xFF
  ++ [0, 0, 1, 0x70] ++ [0, 0, 1, 0x72] ++ [0, 0, 1, 0x70] ++ List.replicate 8 0
  ++ [0x51, 0] ++ [0x52, 0]

/-- Synthetic v3 image with zero `0xFFFFFFFF` padding words: the
disambiguation probe at position 52 reads the would-be `struct_end`
`0x700` directly. -/
def v3pad0 : List Nat := List.replicate 52 0 ++ [0, 0, 7, 0]

/-- Synthetic v3 image for the zero-terminated variant: the probe at
position `0x34` and the word at `0x38` are zero, the two diagnostic words
(given by their four bytes each) sit at `0x3C` and `0x40`,
`struct_end = 0x200` follows at `0x44`, then one pointer record
(`value_ptr = 0x118`, `name_ptr = 0x11B`, i.e. base `0x200 - 0x140 = 0xC0`
plus the string positions `0x58` and `0x5B`), the sentinel, and the strings
`"VW\x00"` and `"N\x00"`. -/
def mkV3ZeroImg (a1 a2 a3 a4 b1 b2 b3 b4 : Nat) : List Nat :=
  List.replicate 60 0 ++ [a1, a2, a3, a4] ++ [b1, b2, b3, b4] ++ [0, 0, 2, 0]
  ++ [0, 0, 1, 0x18] ++ [0, 0, 1, 0x1B] ++ List.replicate 8 0
  ++ [0x56, 0x57, 0] ++ [0x4E, 0]

/-- Image accepted both by the big-endian/`0x0` candidate (version 2) and by
the little-endian/`0x580` candidate (version 3). -/
def dualImg : List Nat :=
  [0, 0, 0, 2] ++ List.replicate 1404 0 ++ [3, 0, 0, 0]

/-- Value of a little-endian hex digit list. -/
def valLE : List Nat → Nat
  | [] => 0
  | d :: L => d + 16 * valLE L

theorem hexDigitsAux_val : ∀ (fuel n : Nat), n ≤ fuel → valLE (hexDigitsAux fuel n) = n
  | 0, n, h => by
    interval_cases n
    rfl
  | fuel + 1, 0, _ => rfl
  | fuel + 1, n + 1, h => by
    have hdiv : (n + 1) / 16 ≤ fuel := by
      have := Nat.div_le_self (n + 1) 16
      have := Nat.div_lt_self (Nat.succ_pos n) (by norm_num : 1 < 16)
      omega
    simp only [hexDigitsAux, valLE, hexDigitsAux_val fuel ((n + 1) / 16) hdiv]
    omega

theorem hexDigitsAux_lt : ∀ (fuel n d : Nat), d ∈ hexDigitsAux fuel n → d < 16
  | 0, _, _, h => by simp [hexDigitsAux] at h
  | fuel + 1, 0, _, h => by simp [hexDigitsAux] at h
  | fuel + 1, n + 1, d, h => by
    simp only [hexDigitsAux, List.mem_cons] at h
    rcases h with h | h
    · omega
    · exact hexDigitsAux_lt fuel ((n + 1) / 16) d h

theorem hexDigitVal_digitChar : ∀ d < 16, hexDigitVal (Nat.digitChar d) = d := by decide

theorem foldl_hexDigitVal (L : List Nat) (acc : Nat) (h : ∀ d ∈ L, d < 16) :
    List.foldl (fun a c => 16 * a + hexDigitVal c) acc ((L.map Nat.digitChar).reverse)
      = acc * 16 ^ L.length + valLE L := by
  induction L generalizing acc with
  | nil => simp [valLE]
  | cons d L ih =>
    simp only [List.map_cons, List.reverse_cons, List.foldl_append, List.foldl_cons,
      List.foldl_nil]
    rw [ih acc (fun x hx => h x (List.mem_cons_of_mem d hx))]
    rw [hexDigitVal_digitChar d (h d (List.mem_cons_self d L))]
    simp only [List.length_cons, valLE]
    ring

/-- Parsing back the hex formatting is the identity: `int(hex(n), 0) = n`. -/
theorem int0_hexStr (n : Nat) : int0 (hexStr n) = n := by
  rcases Nat.eq_zero_or_pos n with h | h
  · subst h
    decide
  · unfold hexStr int0
    rw [if_neg (Nat.pos_iff_ne_zero.mp h)]
    show List.foldl _ 0 (List.drop 2 ('0' :: 'x' :: ((hexDigitsAux n n).map Nat.digitChar).reverse)) = n
    rw [List.drop_succ_cons, List.drop_succ_cons, List.drop_zero]
    rw [foldl_hexDigitVal _ 0 (fun d hd => hexDigitsAux_lt n n d hd)]
    rw [hexDigitsAux_val n n le_rfl]
    ring

theorem read_string_loop_succ (fuel : Nat) (img : List Nat) (pos : Nat) (acc : List Nat) :
    read_string_loop (fuel + 1) img pos acc
      = match img[pos]? with
        | none => read_string_loop fuel img pos acc
        | some b => if b = 0 then some acc
                    else read_string_loop fuel img (pos + 1) (acc ++ [b]) := rfl

theorem read_string_loop_none : ∀ (fuel : Nat) (img : List Nat) (pos : Nat) (acc : List Nat),
    (∀ j, pos ≤ j → img[j]? ≠ some 0) → read_string_loop fuel img pos acc = none
  | 0, _, _, _, _ => rfl
  | fuel + 1, img, pos, acc, h => by
    rw [read_string_loop_succ]
    cases hb : img[pos]? with
    | none => exact read_string_loop_none fuel img pos acc h
    | some b =>
      have hb0 : b ≠ 0 := fun e => h pos le_rfl (by rw [hb, e])
      dsimp only
      rw [if_neg hb0]
      exact read_string_loop_none fuel img (pos + 1) (acc ++ [b])
        (fun j hj => h j (by omega))

/-- The `read_string` call at a position from which no NUL byte is ever
reachable (in particular any position at or past end-of-image) diverges. -/
theorem readStringDiverges_of_no_zero (img : List Nat) (pos : Nat)
    (h : ∀ j, pos ≤ j → img[j]? ≠ some 0) : readStringDiverges img pos := by
  intro fuel
  unfold read_string
  rw [if_neg (by omega : ¬((pos : Int) < 0))]
  rw [show ((pos : Int)).toNat = pos from Int.toNat_natCast pos]
  rw [read_string_loop_none fuel img pos [] h]

theorem read_string_loop_collect (img : List Nat) (z : Nat) (hz : img[z]? = some 0) :
    ∀ (k pos : Nat) (acc : List Nat), pos ≤ z → z - pos = k →
      (∀ j, pos ≤ j → j < z → img[j]? ≠ some 0) →
      read_string_loop (k + 1) img pos acc = some (acc ++ (img.drop pos).take (z - pos)) := by
  intro k
  induction k with
  | zero =>
    intro pos acc hpz hk _
    have : pos = z := by omega
    subst this
    rw [read_string_loop_succ, hz]
    simp
  | succ k ih =>
    intro pos acc hpz hk hfirst
    have hposz : pos < z := by omega
    have hzlen : z < img.length := (List.getElem?_eq_some.mp hz).1
    have hplen : pos < img.length := by omega
    have hb : img[pos]? = some img[pos] := List.getElem?_eq_getElem hplen
    have hb0 : img[pos] ≠ 0 := by
      intro e
      exact hfirst pos le_rfl hposz (by rw [hb, e])
    rw [read_string_loop_succ, hb]
    dsimp only
    rw [if_neg hb0]
    rw [ih (pos + 1) (acc ++ [img[pos]]) (by omega) (by omega)
      (fun j hj hjz => hfirst j (by omega) hjz)]
    rw [List.drop_eq_getElem_cons hplen]
    rw [show z - pos = (z - (pos + 1)) + 1 by omega, List.take_succ_cons]
    simp

theorem read_string_loop_total (img : List Nat) (z : Nat) (hz : img[z]? = some 0) :
    ∀ (k pos : Nat) (acc : List Nat), pos ≤ z → z - pos ≤ k →
      ∃ out, read_string_loop (k + 1) img pos acc = some out := by
  intro k
  induction k with
  | zero =>
    intro pos acc hpz hk
    have : pos = z := by omega
    subst this
    exact ⟨acc, by rw [read_string_loop_succ, hz]; rfl⟩
  | succ k ih =>
    intro pos acc hpz hk
    have hzlen : z < img.length := (List.getElem?_eq_some.mp hz).1
    have hplen : pos < img.length := by omega
    have hb : img[pos]? = some img[pos] := List.getElem?_eq_getElem hplen
    by_cases hb0 : img[pos] = 0
    · exact ⟨acc, by rw [read_string_loop_succ, hb]; dsimp only; rw [if_pos hb0]⟩
    · have hposz : pos < z := by
        rcases Nat.lt_or_ge pos z with h | h
        · exact h
        · have : pos = z := by omega
          subst this
          rw [List.getElem?_eq_getElem hplen] at hz
          exact absurd (Option.some.inj hz) hb0
      rw [read_string_loop_succ, hb]
      dsimp only
      rw [if_neg hb0]
      exact ih (pos + 1) (acc ++ [img[pos]]) (by omega) (by omega)

/-- `read_string` from a nonnegative position whose first NUL byte sits at
index `z`: with enough fuel it returns the bytes strictly before `z`,
decoded as UTF-8 (the decode error when they are not valid UTF-8). -/
theorem read_string_first_zero (img : List Nat) (pos z : Nat) (hpz : pos ≤ z)
    (hz : img[z]? = some 0) (hfirst : ∀ j, pos ≤ j → j < z → img[j]? ≠ some 0) :
    read_string (z - pos + 1) img pos
      = some (match utf8_decode ((img.drop pos).take (z - pos)) with
              | none => Except.error PyErr.unicodeDecodeError
              | some cps => Except.ok (strOfCps cps)) := by
  unfold read_string
  rw [if_neg (by omega : ¬((pos : Int) < 0))]
  rw [show ((pos : Int)).toNat = pos from Int.toNat_natCast pos]
  rw [read_string_loop_collect img z hz (z - pos) pos [] hpz rfl hfirst]
  simp only [List.nil_append]
  cases utf8_decode ((img.drop pos).take (z - pos)) <;> rfl

theorem read_variable_pointers_loop_succ (fuel : Nat) (img : List Nat) (e : Endian)
    (pos : Nat) (bound : Int) (acc : List Ptr) :
    read_variable_pointers_loop (fuel + 1) img e pos bound acc
      = if (pos : Int) < bound then
          let rv := pyRead img pos 4
          let rn := pyRead img rv.2 4
          if rv.1 = [0, 0, 0, 0] ∧ rn.1 = [0, 0, 0, 0] then some (acc, rn.2)
          else
            read_variable_pointers_loop fuel img e rn.2 bound
              (acc ++ [⟨from_bytes e rv.1, from_bytes e rn.1⟩])
        else some (acc, pos) := rfl

theorem pyRead_pos_lt (img : List Nat) (pos k : Nat) (hk : 0 < k)
    (hp : pos < img.length) : pos < (pyRead img pos k).2 := by
  unfold pyRead
  simp only [List.length_take, List.length_drop]
  omega

theorem pyRead_pos_le (img : List Nat) (pos k : Nat) : pos ≤ (pyRead img pos k).2 := by
  unfold pyRead
  dsimp only
  omega

/-- Termination of the pointer-table scan whenever its bound does not exceed
the image length: each pass that enters the loop makes progress. -/
theorem read_variable_pointers_loop_total (img : List Nat) (e : Endian) (bound : Int)
    (hb : bound ≤ (img.length : Int)) :
    ∀ (k pos : Nat) (acc : List Ptr), bound.toNat ≤ pos + k →
      ∃ out, read_variable_pointers_loop (k + 1) img e pos bound acc = some out := by
  intro k
  induction k with
  | zero =>
    intro pos acc hk
    have hnp : ¬((pos : Int) < bound) := by omega
    exact ⟨(acc, pos), by rw [read_variable_pointers_loop_succ, if_neg hnp]⟩
  | succ k ih =>
    intro pos acc hk
    by_cases hp : (pos : Int) < bound
    · have hplen : pos < img.length := by omega
      rw [read_variable_pointers_loop_succ, if_pos hp]
      dsimp only
      by_cases hs : (pyRead img pos 4).1 = [0, 0, 0, 0]
          ∧ (pyRead img (pyRead img pos 4).2 4).1 = [0, 0, 0, 0]
      · exact ⟨_, by rw [if_pos hs]⟩
      · rw [if_neg hs]
        refine ih (pyRead img (pyRead img pos 4).2 4).2 _ ?_
        have h1 : pos < (pyRead img pos 4).2 := pyRead_pos_lt img pos 4 (by norm_num) hplen
        have h2 : (pyRead img pos 4).2 ≤ (pyRead img (pyRead img pos 4).2 4).2 :=
          pyRead_pos_le img (pyRead img pos 4).2 4
        omega
    · exact ⟨(acc, pos), by rw [read_variable_pointers_loop_succ, if_neg hp]⟩

theorem from_bytes_eq_zero (e : Endian) (bs : List Nat) (h4 : bs.length = 4)
    (h0 : from_bytes e bs = 0) : bs = [0, 0, 0, 0] := by
  match bs, h4 with
  | [a, b, c, d], _ =>
    cases e <;> simp only [from_bytes, from_bytes_be, List.reverse_cons, List.reverse_nil,
      List.nil_append, List.cons_append, List.length_cons, List.length_nil] at h0 <;>
      · norm_num at h0
        have ha : a = 0 ∧ b = 0 ∧ c = 0 ∧ d = 0 := by omega
        simp [ha.1, ha.2.1, ha.2.2.1, ha.2.2.2]

/-- Loop invariant for claim C1: while every 8-byte record read lies fully
inside the image, a record decoding to `(0, 0)` would have to consist of the
exact sentinel bytes, which stop the scan instead of being appended. -/
theorem read_variable_pointers_loop_no_zero (img : List Nat) (e : Endian) (bound : Int)
    (hb : bound + 8 ≤ (img.length : Int)) :
    ∀ (fuel pos : Nat) (acc : List Ptr) (out : List Ptr × Nat),
      read_variable_pointers_loop fuel img e pos bound acc = some out →
      Ptr.mk 0 0 ∈ out.1 → Ptr.mk 0 0 ∈ acc
  | 0, _, _, _, h => by simp [read_variable_pointers_loop] at h
  | fuel + 1, pos, acc, out, h => by
    intro hmem
    rw [read_variable_pointers_loop_succ] at h
    by_cases hp : (pos : Int) < bound
    · rw [if_pos hp] at h
      dsimp only at h
      have hlen1 : (pyRead img pos 4).1.length = 4 := by
        unfold pyRead
        simp only [List.length_take, List.length_drop]
        omega
      have hpos1 : (pyRead img pos 4).2 = pos + 4 := by
        unfold pyRead
        simp only [List.length_take, List.length_drop]
        omega
      have hlen2 : (pyRead img (pyRead img pos 4).2 4).1.length = 4 := by
        unfold pyRead
        simp only [List.length_take, List.length_drop]
        omega
      by_cases hs : (pyRead img pos 4).1 = [0, 0, 0, 0]
          ∧ (pyRead img (pyRead img pos 4).2 4).1 = [0, 0, 0, 0]
      · rw [if_pos hs] at h
        cases h
        exact hmem
      · rw [if_neg hs] at h
        have := read_variable_pointers_loop_no_zero img e bound hb fuel _ _ _ h hmem
        rcases List.mem_append.mp this with hacc | hnew
        · exact hacc
        · exfalso
          rcases List.mem_singleton.mp hnew with hrec
          have hv : from_bytes e (pyRead img pos 4).1 = 0 := congrArg Ptr.value hrec.symm
          have hn : from_bytes e (pyRead img (pyRead img pos 4).2 4).1 = 0 :=
            congrArg Ptr.name hrec.symm
          exact hs ⟨from_bytes_eq_zero e _ hlen1 hv, from_bytes_eq_zero e _ hlen2 hn⟩
    · rw [if_neg hp] at h
      cases h
      exact hmem

theorem skip_while_succ (fuel : Nat) (img : List Nat) (e : Endian) (pos target : Nat) :
    skip_while (fuel + 1) img e pos target
      = if (read_integer img e pos).1 = target
        then skip_while fuel img e (read_integer img e pos).2 target
        else some (read_integer img e pos) := rfl

/-- C1 counterexample: on a six-byte all-zero image with stop bound 5, the
second 4-byte read is truncated to two bytes, the raw-bytes sentinel test
fails, and the scan returns a record whose value and name fields are both
`0x00000000`. -/
theorem c1_counterexample :
    read_variable_pointers 10 [0, 0, 0, 0, 0, 0] Endian.big 0 5
      = some ([Ptr.mk 0 0], 6) := rfl

/-- C1 (amended): whenever the scan stays at least 8 bytes clear of
end-of-image (`bound + 8 ≤ image length`), so that every record read is a
full 8 bytes, the returned list never contains a record whose value and name
fields are both zero — that exact byte pair is the terminator sentinel,
which stops the scan and is discarded. -/
theorem c1_no_sentinel_record (fuel : Nat) (img : List Nat) (e : Endian) (pos : Nat)
    (bound : Int) (out : List Ptr × Nat) (hb : bound + 8 ≤ (img.length : Int))
    (h : read_variable_pointers fuel img e pos bound = some out) :
    Ptr.mk 0 0 ∉ out.1 := by
  intro hmem
  have := read_variable_pointers_loop_no_zero img e bound hb fuel pos [] out h hmem
  simp at this

/-- C1 witness: a scan over one real record followed by the sentinel, fully
inside a 24-byte image. -/
theorem c1_no_sentinel_record_witness :
    Ptr.mk 0 0 ∉ [Ptr.mk 1 2] :=
  c1_no_sentinel_record 10
    [0, 0, 0, 1, 0, 0, 0, 2, 0, 0, 0, 0, 0, 0, 0, 0, 9, 9, 9, 9, 9, 9, 9, 9]
    Endian.big 0 9 ([Ptr.mk 1 2], 16) (by decide) (by decide)

/-- C2 counterexample: on the empty image the string reader sits at
end-of-image from the start; `read(1)` returns `b""` forever and the read
never terminates, for any amount of fuel — decoding is not bounded by the
image size there. -/
theorem c2_counterexample : readStringDiverges [] 0 :=
  readStringDiverges_of_no_zero [] 0 (by intro j hj; simp)

/-- C2 (amended): the reading primitives terminate when their terminator or
bound is reachable inside the image — `read_string` terminates whenever some
NUL byte lies at or after the start position, and the pointer-table scan
terminates whenever its stop bound does not exceed the image length; at
end-of-image before a terminator, `read_string` loops forever instead of
erroring. -/
theorem c2_termination :
    (∀ (img : List Nat) (pos : Nat), (∃ z, pos ≤ z ∧ img[z]? = some 0) →
        ∃ fuel out, read_string fuel img (pos : Int) = some out)
  ∧ (∀ (img : List Nat) (e : Endian) (pos : Nat) (bound : Int),
        bound ≤ (img.length : Int) →
        ∃ fuel out, read_variable_pointers fuel img e pos bound = some out) := by
  constructor
  · intro img pos h
    rcases h with ⟨z, hpz, hz⟩
    rcases read_string_loop_total img z hz (z - pos) pos [] hpz le_rfl with ⟨bs, hbs⟩
    refine ⟨z - pos + 1, ?_⟩
    unfold read_string
    rw [if_neg (by omega : ¬((pos : Int) < 0))]
    rw [show ((pos : Int)).toNat = pos from Int.toNat_natCast pos]
    rw [hbs]
    dsimp only
    cases h2 : utf8_decode bs with
    | none => exact ⟨.error .unicodeDecodeError, rfl⟩
    | some cps => exact ⟨.ok (strOfCps cps), rfl⟩
  · intro img e pos bound hb
    rcases read_variable_pointers_loop_total img e bound hb bound.toNat pos []
      (by omega) with ⟨out, hout⟩
    exact ⟨bound.toNat + 1, out, hout⟩

/-- C2 witness: a NUL byte at index 1 makes the string read terminate, and a
negative bound makes the pointer scan return at once. -/
theorem c2_termination_witness :
    (∃ fuel out, read_string fuel [65, 0] ((0 : Nat) : Int) = some out)
  ∧ (∃ fuel out, read_variable_pointers fuel [] Endian.big 0 (-3) = some out) :=
  ⟨c2_termination.1 [65, 0] 0 ⟨1, by omega, rfl⟩,
   c2_termination.2 [] Endian.big 0 (-3) (by norm_num)⟩

/-- C3 counterexample: an image with no NUL byte after the start position —
instead of failing with an unterminated-string error, `read_string` never
returns at all. -/
theorem c3_counterexample : readStringDiverges [0x41, 0x42] 0 :=
  readStringDiverges_of_no_zero [0x41, 0x42] 0
    (by intro j hj; rcases j with _ | _ | j <;> simp)

/-- C3 (amended): when a first NUL byte exists at index `z`, `read_string`
returns exactly the bytes before `z` decoded as UTF-8, failing with the
UTF-8 decode error when they are invalid — never a truncated or garbled
string; when no NUL byte is reachable (end-of-image first), it does not fail
with an error but diverges. -/
theorem c3_read_string_behavior :
    (∀ (img : List Nat) (pos z : Nat), pos ≤ z → img[z]? = some 0 →
        (∀ j, pos ≤ j → j < z → img[j]? ≠ some 0) →
        read_string (z - pos + 1) img (pos : Int)
          = some (match utf8_decode ((img.drop pos).take (z - pos)) with
                  | none => Except.error PyErr.unicodeDecodeError
                  | some cps => Except.ok (strOfCps cps)))
  ∧ (∀ (img : List Nat) (pos : Nat), (∀ j, pos ≤ j → img[j]? ≠ some 0) →
        readStringDiverges img (pos : Int)) :=
  ⟨read_string_first_zero, readStringDiverges_of_no_zero⟩

/-- C3 witness: a valid ASCII string decodes, an invalid UTF-8 byte yields
the decode error, and a NUL-free tail diverges. -/
theorem c3_read_string_behavior_witness :
    read_string 2 [65, 0] ((0 : Nat) : Int) = some (Except.ok "A")
  ∧ read_string 2 [0xFF, 0] ((0 : Nat) : Int)
      = some (Except.error PyErr.unicodeDecodeError)
  ∧ readStringDiverges [70] ((1 : Nat) : Int) :=
  ⟨c3_read_string_behavior.1 [65, 0] 0 1 (by omega) rfl
      (fun j h1 h2 => by interval_cases j; decide),
   c3_read_string_behavior.1 [0xFF, 0] 0 1 (by omega) rfl
      (fun j h1 h2 => by interval_cases j; decide),
   c3_read_string_behavior.2 [70] 1 (by intro j hj; rcases j with _ | j <;> simp)⟩

/-- C4 counterexample: at end-of-image (0 of the 4 requested bytes remain),
`read_integer` does not fail — it decodes the empty byte string to 0 and
leaves the position unchanged. -/
theorem c4_counterexample : read_integer [] Endian.big 0 = (0, 0) := rfl

/-- C4 (amended): `read_integer` never fails; with at least 4 bytes
remaining it advances the position by exactly 4 and returns those bytes
decoded under the given endianness, and at or past end-of-image it returns 0
without advancing. -/
theorem c4_read_integer (img : List Nat) (e : Endian) (pos : Nat) :
    (pos + 4 ≤ img.length →
      read_integer img e pos = (from_bytes e ((img.drop pos).take 4), pos + 4))
  ∧ (img.length ≤ pos → read_integer img e pos = (0, pos)) := by
  constructor
  · intro h
    unfold read_integer pyRead
    have : ((img.drop pos).take 4).length = 4 := by
      simp only [List.length_take, List.length_drop]
      omega
    simp [this]
  · intro h
    unfold read_integer pyRead
    have hnil : img.drop pos = [] := List.drop_eq_nil_of_le h
    cases e <;> simp [hnil, from_bytes, from_bytes_be]

/-- C4 witness: a full 4-byte read advances by 4; a read past end-of-image
returns 0 in place. -/
theorem c4_read_integer_witness :
    read_integer [1, 2, 3, 4, 5] Endian.big 0 = (from_bytes Endian.big [1, 2, 3, 4], 4)
  ∧ read_integer [9] Endian.big 5 = (0, 5) :=
  ⟨(c4_read_integer [1, 2, 3, 4, 5] Endian.big 0).1 (by norm_num),
   (c4_read_integer [9] Endian.big 5).2 (by norm_num)⟩

/-- C5: `mtd2_start` as parsed from the v2 fixed fields is exactly the base
subtracted from every string pointer and the subtrahend of the scan bound
`last_data_position - mtd2_start` (`parse_urlader_v2` equals the variant
that uses the raw `mtd2_start` directly, with no hex-string detour); and on
the synthetic image whose pointers are that base plus the string positions,
decoding returns exactly the planted `"AB" ↦ "xy"` entry. -/
theorem c5_mtd2_base_roundtrip :
    (∀ (fuel : Nat) (img : List Nat) (e : Endian) (offset : Nat),
        parse_urlader_v2 fuel img e offset = parse_urlader_v2_base fuel img e offset)
  ∧ parse_urlader 50 v2img Endian.big 0
      = some (Except.ok (TopResult.ok
          [("version", Value.int 2), ("memsize", Value.int 0),
           ("flashsize", Value.int 0), ("unused1", Value.int 0),
           ("unused2", Value.int 0), ("mtd0_start", Value.str "0x0"),
           ("mtd0_length", Value.str "0x0"), ("mtd1_start", Value.str "0x0"),
           ("mtd1_length", Value.str "0x0"), ("mtd2_start", Value.str "0x100"),
           ("mtd2_length", Value.str "0x0"), ("mtd3_start", Value.str "0x0"),
           ("mtd3_length", Value.str "0x0"), ("mtd4_start", Value.str "0x0"),
           ("mtd4_length", Value.str "0x0"), ("mtd5_start", Value.str "0x0"),
           ("mtd5_length", Value.str "0x0"), ("unknown_data1", Value.str "0x0"),
           ("unknown_data2", Value.str "0x0"),
           ("last_data_position", Value.str "0x180"),
           ("AB", Value.str "xy")])) := by
  constructor
  · intro fuel img e offset
    simp only [parse_urlader_v2, parse_urlader_v2_base, int0_hexStr]
  · rfl

/-- C6 counterexample: in the zero-terminated v3 variant the first non-zero
diagnostic word sits at image offset `0x3C`, but the output has no key for
that offset — the entry is keyed by the cursor position *after* the word
(`unknown0x40`), so the recorded offsets are the word offsets plus 4. -/
theorem c6_counterexample :
    resultLookup (parse_urlader_v3 20 (mkV3ZeroImg 0 0 0 0x33 0 0 0 0x44) Endian.big 0)
        "unknown0x3c" = none
  ∧ resultLookup (parse_urlader_v3 20 (mkV3ZeroImg 0 0 0 0x33 0 0 0 0x44) Endian.big 0)
        "unknown0x40" = some (Value.str "0x33") := ⟨rfl, rfl⟩

/-- C6 (amended): for the zero-terminated v3 variant (probe reads 0, one
further zero word, then the diagnostic words), the decoder skips the zero
run, records the first non-zero integer and the immediately following
integer (zero or not) as entries keyed `unknown<hex(p)>` where `p` is the
position just after each word (its offset plus 4), then reads one more
integer as `struct_end` and resolves every string pointer with base
`struct_end - 0x140` — shown on diagnostic words `(0x11, 0x22)` and
`(0x33, 0)` at offsets `0x3C` and `0x40`, and in general: once the probe
reads zero, decoding is the zero-run skip followed by `v3_zero_tail`. -/
theorem c6_zero_variant :
    parse_urlader_v3 20 (mkV3ZeroImg 0 0 0 0x11 0 0 0 0x22) Endian.big 0
      = some (Except.ok
          [("memsize", Value.str "0x0"), ("flashsize", Value.str "0x0"),
           ("mtd0_start", Value.str "0x0"), ("mtd0_length", Value.str "0x0"),
           ("mtd1_start", Value.str "0x0"), ("mtd1_length", Value.str "0x0"),
           ("mtd2_start", Value.str "0x0"), ("mtd2_length", Value.str "0x0"),
           ("mtd3_start", Value.str "0x0"), ("mtd3_length", Value.str "0x0"),
           ("mtd4_start", Value.str "0x0"), ("mtd4_length", Value.str "0x0"),
           ("unknown0x40", Value.str "0x11"), ("unknown0x44", Value.str "0x22"),
           ("struct_end", Value.str "0x200"), ("N", Value.str "VW")])
  ∧ parse_urlader_v3 20 (mkV3ZeroImg 0 0 0 0x33 0 0 0 0) Endian.big 0
      = some (Except.ok
          [("memsize", Value.str "0x0"), ("flashsize", Value.str "0x0"),
           ("mtd0_start", Value.str "0x0"), ("mtd0_length", Value.str "0x0"),
           ("mtd1_start", Value.str "0x0"), ("mtd1_length", Value.str "0x0"),
           ("mtd2_start", Value.str "0x0"), ("mtd2_length", Value.str "0x0"),
           ("mtd3_start", Value.str "0x0"), ("mtd3_length", Value.str "0x0"),
           ("mtd4_start", Value.str "0x0"), ("mtd4_length", Value.str "0x0"),
           ("unknown0x40", Value.str "0x33"), ("unknown0x44", Value.str "0x0"),
           ("struct_end", Value.str "0x200"), ("N", Value.str "VW")])
  ∧ (∀ (fuel : Nat) (img : List Nat) (e : Endian) (off : Nat),
        (read_integer img e (v3_fixed_vars img e off).2.2).1 = 0 →
        parse_urlader_v3 fuel img e off
          = match skip_while fuel img e
                (read_integer img e (v3_fixed_vars img e off).2.2).2 0 with
            | none => none
            | some r => v3_zero_tail fuel img e (v3_fixed_vars img e off).1 r.1 r.2) := by
  refine ⟨rfl, rfl, ?_⟩
  intro fuel img e off h0
  simp only [parse_urlader_v3]
  rw [h0]
  norm_num
  cases skip_while fuel img e (read_integer img e (v3_fixed_vars img e off).2.2).2 0 with
  | none => rfl
  | some r =>
    obtain ⟨c1, p1⟩ := r
    rfl

/-- C6 witness: the zero-branch selection applied to a concrete image with
diagnostic words 9 and 7. -/
theorem c6_zero_variant_witness :
    parse_urlader_v3 20 (mkV3ZeroImg 0 0 0 9 0 0 0 7) Endian.big 0
      = match skip_while 20 (mkV3ZeroImg 0 0 0 9 0 0 0 7) Endian.big
            (read_integer (mkV3ZeroImg 0 0 0 9 0 0 0 7) Endian.big
              (v3_fixed_vars (mkV3ZeroImg 0 0 0 9 0 0 0 7) Endian.big 0).2.2).2 0 with
        | none => none
        | some r => v3_zero_tail 20 (mkV3ZeroImg 0 0 0 9 0 0 0 7) Endian.big
            (v3_fixed_vars (mkV3ZeroImg 0 0 0 9 0 0 0 7) Endian.big 0).1 r.1 r.2 :=
  c6_zero_variant.2.2 20 (mkV3ZeroImg 0 0 0 9 0 0 0 7) Endian.big 0 (by decide)

/-- C7 counterexample: with zero `0xFFFFFFFF` padding words the
disambiguation probe reads the would-be `struct_end` `0x700` itself, which
is neither recognized terminator, and decoding raises instead of
succeeding. -/
theorem c7_counterexample :
    parse_urlader_v3 50 v3pad0 Endian.big 0
      = some (Except.error (PyErr.unexpectedStructEnd 0x700 56)) := rfl

/-- C7 (amended): with at least one `0xFFFFFFFF` padding word (the probe
itself), the decoder absorbs the run, takes the first other integer as
`struct_end` (recorded as a hex string), resolves pointers with base
`mtd2_start` and bounds the scan by `struct_end - mtd2_start` — shown for
N = 1 and N = 10 padding words; with N = 0 the probe reads `struct_end`
directly, and any probe value other than `0xFFFFFFFF` and `0x00000000`
raises the unrecognized-terminator error. -/
theorem c7_padding_variant :
    parse_urlader_v3 50 v3pad1 Endian.big 0
      = some (Except.ok
          [("memsize", Value.str "0x0"), ("flashsize", Value.str "0x0"),
           ("mtd0_start", Value.str "0x0"), ("mtd0_length", Value.str "0x0"),
           ("mtd1_start", Value.str "0x0"), ("mtd1_length", Value.str "0x0"),
           ("mtd2_start", Value.str "0x100"), ("mtd2_length", Value.str "0x0"),
           ("mtd3_start", Value.str "0x0"), ("mtd3_length", Value.str "0x0"),
           ("mtd4_start", Value.str "0x0"), ("mtd4_length", Value.str "0x0"),
           ("struct_end", Value.str "0x150"), ("K", Value.str "ZZ")])
  ∧ parse_urlader_v3 50 v3pad10 Endian.big 0
      = some (Except.ok
          [("memsize", Value.str "0x0"), ("flashsize", Value.str "0x0"),
           ("mtd0_start", Value.str "0x0"), ("mtd0_length", Value.str "0x0"),
           ("mtd1_start", Value.str "0x0"), ("mtd1_length", Value.str "0x0"),
           ("mtd2_start", Value.str "0x100"), ("mtd2_length", Value.str "0x0"),
           ("mtd3_start", Value.str "0x0"), ("mtd3_length", Value.str "0x0"),
           ("mtd4_start", Value.str "0x0"), ("mtd4_length", Value.str "0x0"),
           ("struct_end", Value.str "0x170"), ("Q", Value.str "R")])
  ∧ (∀ (fuel : Nat) (img : List Nat) (e : Endian) (off : Nat),
        (read_integer img e (v3_fixed_vars img e off).2.2).1 ≠ 0xFFFFFFFF →
        (read_integer img e (v3_fixed_vars img e off).2.2).1 ≠ 0 →
        parse_urlader_v3 fuel img e off
          = some (Except.error (PyErr.unexpectedStructEnd
              (read_integer img e (v3_fixed_vars img e off).2.2).1
              (read_integer img e (v3_fixed_vars img e off).2.2).2))) := by
  refine ⟨rfl, rfl, ?_⟩
  intro fuel img e off h1 h2
  simp only [parse_urlader_v3]
  rw [if_neg h1, if_neg h2]

/-- C7 witness: the general unrecognized-terminator branch applied to the
zero-padding image. -/
theorem c7_padding_variant_witness :
    parse_urlader_v3 7 v3pad0 Endian.big 0
      = some (Except.error (PyErr.unexpectedStructEnd
          (read_integer v3pad0 Endian.big (v3_fixed_vars v3pad0 Endian.big 0).2.2).1
          (read_integer v3pad0 Endian.big (v3_fixed_vars v3pad0 Endian.big 0).2.2).2)) :=
  c7_padding_variant.2.2 7 v3pad0 Endian.big 0 (by decide) (by decide)

/-- C8: format detection is the first-match scan of the candidate list
big/`0x0`, big/`0x580`, little/`0x0`, little/`0x580` under the `≤ 5`
predicate (so no later candidate is tried once one matches, and `none` is
returned exactly when all four fail); on an image valid both as big/`0x0`
and as little/`0x580`, the big/`0x0` candidate wins. -/
theorem c8_detection_order :
    (∀ img : List Nat,
        identify_urlader img
          = [(Endian.big, 0x0), (Endian.big, 0x580),
             (Endian.little, 0x0), (Endian.little, 0x580)].find?
              (fun c => versionAt img c.1 c.2 ≤ 5))
  ∧ versionAt dualImg Endian.big 0x0 ≤ 5
  ∧ versionAt dualImg Endian.little 0x580 ≤ 5
  ∧ identify_urlader dualImg = some (Endian.big, 0x0) := by
  refine ⟨?_, by decide, by decide, by decide⟩
  intro img
  by_cases h1 : versionAt img Endian.big 0x0 ≤ 5 <;>
    by_cases h2 : versionAt img Endian.big 0x580 ≤ 5 <;>
      by_cases h3 : versionAt img Endian.little 0x0 ≤ 5 <;>
        by_cases h4 : versionAt img Endian.little 0x580 ≤ 5 <;>
          simp [identify_urlader, List.find?, h1, h2, h3, h4]

/-- C9: when the version field read at the given offset is neither 2 nor 3,
the decode entry point signals the unsupported version while the partial
output consists of exactly the `version` key with the value that was read —
neither layout decoder contributes anything. -/
theorem c9_unsupported_version (fuel : Nat) (img : List Nat) (e : Endian) (offset : Nat)
    (h2 : from_bytes e (pyRead img offset 4).1 ≠ 2)
    (h3 : from_bytes e (pyRead img offset 4).1 ≠ 3) :
    parse_urlader fuel img e offset
      = some (Except.ok (TopResult.unsupported
          [("version", Value.int (from_bytes e (pyRead img offset 4).1))]
          (from_bytes e (pyRead img offset 4).1))) := by
  simp only [parse_urlader]
  rw [if_neg h2, if_neg h3]

/-- C9 witness: a version field of 7 (big-endian at offset 0). -/
theorem c9_unsupported_version_witness :
    parse_urlader 5 [0, 0, 0, 7] Endian.big 0
      = some (Except.ok (TopResult.unsupported
          [("version", Value.int (from_bytes Endian.big (pyRead [0, 0, 0, 7] 0 4).1))]
          (from_bytes Endian.big (pyRead [0, 0, 0, 7] 0 4).1))) :=
  c9_unsupported_version 5 [0, 0, 0, 7] Endian.big 0 (by decide) (by decide)

/-- C10: on images of at most `0x580` bytes detection never falls through to
the no-match result — if the big/`0x0` probe does not already accept, the
big/`0x580` probe reads zero bytes past end-of-image, decodes them to 0, and
0 ≤ 5 is accepted; on the empty image the very first candidate big/`0x0`
accepts with value 0. -/
theorem c10_short_image_detected :
    (∀ img : List Nat, img.length ≤ 0x580 → identify_urlader img ≠ none)
  ∧ identify_urlader [] = some (Endian.big, 0x0) := by
  constructor
  · intro img hlen
    unfold identify_urlader
    by_cases h1 : versionAt img Endian.big 0x0 ≤ 5
    · simp [h1]
    · have h580 : versionAt img Endian.big 0x580 = 0 := by
        unfold versionAt read_integer pyRead
        have hnil : img.drop 0x580 = [] := List.drop_eq_nil_of_le hlen
        simp [hnil, from_bytes, from_bytes_be]
      simp [h1, h580]
  · rfl

/-- C10 witness: the empty image is detected. -/
theorem c10_short_image_detected_witness :
    identify_urlader [] ≠ none :=
  c10_short_image_detected.1 [] (by norm_num)

end Urlader
